import Mathlib

/-!
Shallow embedding of `src/traffic_generator.py` (TrafficGenerator class):
the statistics accumulator, the two request dispatchers `send_chat` and
`send_malformed`, the scenario runners, and the summary reporter.

Network behaviour is modelled by an oracle value (`NetOutcome`) describing,
for one HTTP POST, whether the post itself raised, and otherwise the
response status together with the outcome of reading the body
(`resp.json()` / `resp.text()` may each raise).  Wall-clock latencies are
rationals (the Python floats, modelled exactly); monetary cost is a
rational; token counts are integers.  Log emission via `self.log` is
modelled by the log line (if any) each dispatcher passes to `log`; the
`verbose` flag only gates printing, not which line is produced.
-/

/-- Embeds the `self.stats` dictionary initialised in
`TrafficGenerator.__init__` (keys `total`, `success`, `errors`,
`total_latency_ms`, `total_tokens`, `total_cost`). -/
@[ext] structure Stats where
  total : Nat
  success : Nat
  errors : Nat
  total_latency_ms : ℚ
  total_tokens : Int
  total_cost : ℚ
deriving DecidableEq, Repr

/-- The all-zero statistics dictionary built in `__init__`. -/
def initStats : Stats :=
  { total := 0, success := 0, errors := 0,
    total_latency_ms := 0, total_tokens := 0, total_cost := 0 }

/-- Result of awaiting a body read (`resp.json()` or `resp.text()`):
either the value, or the exception message when the read raises. -/
inductive BodyRead (α : Type) where
  | ok (val : α)
  | raised (msg : String)
deriving DecidableEq, Repr

/-- The `data["tokens"]` sub-object: `data["tokens"].get("total_tokens", 0)`
defaults a missing inner key to 0. -/
structure TokensField where
  total_tokens : Option Int
deriving DecidableEq, Repr

/-- The `data["cost"]` sub-object: `data["cost"].get("total_cost_usd", 0)`
defaults a missing inner key to 0. -/
structure CostField where
  total_cost_usd : Option ℚ
deriving DecidableEq, Repr

/-- A parsed HTTP-200 JSON body: the outer `tokens` / `cost` keys are
`none` when absent (or falsy, so `data.get("tokens")` is skipped). -/
structure ChatBody where
  tokens : Option TokensField
  cost : Option CostField
deriving DecidableEq, Repr

/-- Contribution of a body to `stats["total_tokens"]`: the code adds
`data["tokens"].get("total_tokens", 0)` only when `data.get("tokens")` is
truthy. -/
def ChatBody.tokenContrib (b : ChatBody) : Int :=
  match b.tokens with
  | some t => t.total_tokens.getD 0
  | none => 0

/-- Contribution of a body to `stats["total_cost"]`: the code adds
`data["cost"].get("total_cost_usd", 0)` only when `data.get("cost")` is
truthy. -/
def ChatBody.costContrib (b : ChatBody) : ℚ :=
  match b.cost with
  | some c => c.total_cost_usd.getD 0
  | none => 0

/-- One HTTP response as observed by a dispatcher: the status, plus the
oracle for each body read the dispatcher might perform. -/
structure HttpResponse where
  status : Nat
  json : BodyRead ChatBody
  text : BodyRead String
deriving DecidableEq, Repr

/-- Oracle for one `session.post` call.  `postExn` : the post (connect,
write, timeout, ...) raised; `exnLatency` is the latency measured inside
the `except` block.  `response` : a response arrived after `latency` ms;
`exnLatency` is the (later) latency that the `except` block would measure
if a subsequent body read raises. -/
inductive NetOutcome where
  | postExn (exnLatency : ℚ) (msg : String)
  | response (latency : ℚ) (resp : HttpResponse) (exnLatency : ℚ)
deriving DecidableEq, Repr

/-- The dictionary a dispatcher returns.  `none` in an `Option` field
models the key being absent from the returned dict. -/
structure ChatResult where
  ok : Bool
  latency_ms : Option ℚ
  error : Option String
  data : Option ChatBody
deriving DecidableEq, Repr

/-- The line a dispatcher passes to `self.log`, abstracted from its
f-string formatting (truncation of message/error text is presentation
only). -/
inductive LogLine where
  | okLine (latency : ℚ)
  | errorLine (status : Nat) (latency : ℚ)
  | exceptionLine (latency : ℚ)
  | expectedErrorLine (status : Nat) (latency : ℚ)
  | unexpectedSuccessLine (latency : ℚ)
deriving DecidableEq, Repr

/-- Effect of one dispatcher call: the updated statistics, the returned
result dict, and the log line (if the call logged one). -/
structure StepOut where
  stats : Stats
  result : ChatResult
  log : Option LogLine
deriving DecidableEq, Repr

/-- Embeds `TrafficGenerator.send_chat` (lines 83-117).  On a response:
`total` and `total_latency_ms` are updated first; then on status 200 the
body is parsed (`resp.json()` may raise), `success` is incremented and
token/cost contributions folded in; on non-200 `errors` is incremented and
the error text is read (`resp.text()` may raise).  Any exception —
including one raised by a body read after the counters above were already
updated — lands in the `except` block, which increments `total` and
`errors` (again, in the body-read case) and does not touch
`total_latency_ms`. -/
def send_chat (s : Stats) (o : NetOutcome) : StepOut :=
  match o with
  | .postExn exnLat msg =>
      { stats := { s with total := s.total + 1, errors := s.errors + 1 },
        result := { ok := false, latency_ms := some exnLat, error := some msg, data := none },
        log := some (.exceptionLine exnLat) }
  | .response lat resp exnLat =>
      let s₁ := { s with total := s.total + 1,
                         total_latency_ms := s.total_latency_ms + lat }
      if resp.status = 200 then
        match resp.json with
        | .ok data =>
            { stats := { s₁ with success := s₁.success + 1,
                                 total_tokens := s₁.total_tokens + data.tokenContrib,
                                 total_cost := s₁.total_cost + data.costContrib },
              result := { ok := true, latency_ms := some lat, error := none, data := some data },
              log := some (.okLine lat) }
        | .raised msg =>
            { stats := { s₁ with total := s₁.total + 1, errors := s₁.errors + 1 },
              result := { ok := false, latency_ms := some exnLat, error := some msg, data := none },
              log := some (.exceptionLine exnLat) }
      else
        let s₂ := { s₁ with errors := s₁.errors + 1 }
        match resp.text with
        | .ok t =>
            { stats := s₂,
              result := { ok := false, latency_ms := some lat, error := some t, data := none },
              log := some (.errorLine resp.status lat) }
        | .raised msg =>
            { stats := { s₂ with total := s₂.total + 1, errors := s₂.errors + 1 },
              result := { ok := false, latency_ms := some exnLat, error := some msg, data := none },
              log := some (.exceptionLine exnLat) }

/-- Embeds `TrafficGenerator.send_malformed` (lines 119-140).  On a
response `total` is incremented, then non-200 increments `errors` (logged
as expected error) and 200 increments `success` (logged as unexpected
success); the returned dict is `{"ok": status == 200, "latency_ms": ...}`.
The `except` block increments `total` and `errors`, logs nothing, and
returns a dict with no `latency_ms` key.  No branch touches
`total_latency_ms`. -/
def send_malformed (s : Stats) (o : NetOutcome) : StepOut :=
  match o with
  | .postExn _ msg =>
      { stats := { s with total := s.total + 1, errors := s.errors + 1 },
        result := { ok := false, latency_ms := none, error := some msg, data := none },
        log := none }
  | .response lat resp _ =>
      let s₁ := { s with total := s.total + 1 }
      if resp.status ≠ 200 then
        { stats := { s₁ with errors := s₁.errors + 1 },
          result := { ok := false, latency_ms := some lat, error := none, data := none },
          log := some (.expectedErrorLine resp.status lat) }
      else
        { stats := { s₁ with success := s₁.success + 1 },
          result := { ok := true, latency_ms := some lat, error := none, data := none },
          log := some (.unexpectedSuccessLine lat) }

/-- Scheduler-visible events of a scenario run: a dispatcher call being
launched, or an `asyncio.sleep`. -/
inductive Ev where
  | dispatchChat
  | dispatchMalformed
  | sleep (d : ℚ)
deriving DecidableEq, Repr

/-- Aggregate outcome of a scenario run: final statistics, the trace of
dispatch/sleep events, the result dicts, and the emitted log lines
(scenario banner lines are omitted; only dispatcher lines are tracked). -/
structure RunOut where
  stats : Stats
  trace : List Ev
  results : List ChatResult
  logs : List LogLine
deriving DecidableEq, Repr

/-- Embeds `scenario_normal` (lines 142-153): sequential `send_chat` calls
with `asyncio.sleep(delay)` after every request except the last
(`if i < requests - 1`).  The list supplies the network oracle for each of
the `requests` iterations. -/
def scenario_normal (delay : ℚ) : Stats → List NetOutcome → RunOut
  | s, [] => { stats := s, trace := [], results := [], logs := [] }
  | s, o :: rest =>
      let st := send_chat s o
      let tail := scenario_normal delay st.stats rest
      { stats := tail.stats,
        trace := Ev.dispatchChat :: (if rest.isEmpty then tail.trace else Ev.sleep delay :: tail.trace),
        results := st.result :: tail.results,
        logs := st.log.toList ++ tail.logs }

/-- Embeds `scenario_spike` (lines 155-167): all `send_chat` tasks are
created in a loop with no sleep between them and awaited together with
`asyncio.gather`, which returns only once every task is done.  The list
order is the completion order in which the results are folded into the
shared statistics. -/
def scenario_spike : Stats → List NetOutcome → RunOut
  | s, [] => { stats := s, trace := [], results := [], logs := [] }
  | s, o :: rest =>
      let st := send_chat s o
      let tail := scenario_spike st.stats rest
      { stats := tail.stats,
        trace := Ev.dispatchChat :: tail.trace,
        results := st.result :: tail.results,
        logs := st.log.toList ++ tail.logs }

/-- Embeds `scenario_errors` (lines 169-179): sequential `send_malformed`
calls with an unconditional `asyncio.sleep(0.5)` after every probe. -/
def scenario_errors : Stats → List NetOutcome → RunOut
  | s, [] => { stats := s, trace := [], results := [], logs := [] }
  | s, o :: rest =>
      let st := send_malformed s o
      let tail := scenario_errors st.stats rest
      { stats := tail.stats,
        trace := Ev.dispatchMalformed :: Ev.sleep (1/2) :: tail.trace,
        results := st.result :: tail.results,
        logs := st.log.toList ++ tail.logs }

/-- Embeds `scenario_cost` (lines 181-191): sequential `send_chat` calls
(with large prompts) and an unconditional `asyncio.sleep(2)` after each. -/
def scenario_cost : Stats → List NetOutcome → RunOut
  | s, [] => { stats := s, trace := [], results := [], logs := [] }
  | s, o :: rest =>
      let st := send_chat s o
      let tail := scenario_cost st.stats rest
      { stats := tail.stats,
        trace := Ev.dispatchChat :: Ev.sleep 2 :: tail.trace,
        results := st.result :: tail.results,
        logs := st.log.toList ++ tail.logs }

/-- Embeds `scenario_safe_mode` (lines 193-211): sequential `send_chat`
calls with `safe_mode=True` and an unconditional `asyncio.sleep(1)` after
each. -/
def scenario_safe_mode : Stats → List NetOutcome → RunOut
  | s, [] => { stats := s, trace := [], results := [], logs := [] }
  | s, o :: rest =>
      let st := send_chat s o
      let tail := scenario_safe_mode st.stats rest
      { stats := tail.stats,
        trace := Ev.dispatchChat :: Ev.sleep 1 :: tail.trace,
        results := st.result :: tail.results,
        logs := st.log.toList ++ tail.logs }

/-- One dispatcher call against the shared statistics, as issued by any
scenario: a well-formed chat request or a malformed probe, with its
network oracle. -/
inductive Step where
  | chat (o : NetOutcome)
  | malformed (o : NetOutcome)
deriving DecidableEq, Repr

/-- Statistics transition of one dispatcher call. -/
def apply_step (s : Stats) : Step → Stats
  | .chat o => (send_chat s o).stats
  | .malformed o => (send_malformed s o).stats

/-- Statistics reached by a sequence of dispatcher calls starting from the
freshly initialised accumulator (any scenario run, or any concatenation of
scenario runs, is such a sequence). -/
def run_steps (l : List Step) : Stats :=
  l.foldl apply_step initStats

/-- The summary computed by `print_summary` (lines 238-257): percentages
use the `max(1, total)` guard; average latency, token and cost lines are
printed only under the guards shown, modelled by `Option`. -/
structure Summary where
  total : Nat
  success : Nat
  successPct : ℚ
  errors : Nat
  errorPct : ℚ
  avgLatency : Option ℚ
  totalTokens : Option Int
  totalCost : Option ℚ
deriving DecidableEq, Repr

/-- Embeds `print_summary`: every arithmetic step it performs, with the
division guards exactly as in the source (`max(1, ...)` for the
percentages, `if total > 0` for the average). -/
def print_summary (s : Stats) : Summary :=
  { total := s.total,
    success := s.success,
    successPct := (s.success : ℚ) / (max 1 s.total : Nat) * 100,
    errors := s.errors,
    errorPct := (s.errors : ℚ) / (max 1 s.total : Nat) * 100,
    avgLatency := if s.total > 0 then some (s.total_latency_ms / (s.total : ℚ)) else none,
    totalTokens := if s.total_tokens > 0 then some s.total_tokens else none,
    totalCost := if s.total_cost > 0 then some s.total_cost else none }

/-- Python's `base_url.rstrip("/")`: remove every trailing slash. -/
def rstrip_slash (s : String) : String :=
  ⟨(s.data.reverse.dropWhile (fun c => c == '/')).reverse⟩

/-- Embeds the `TrafficGenerator` object state set up in `__init__`. -/
structure TrafficGenerator where
  base_url : String
  verbose : Bool
  stats : Stats
deriving DecidableEq, Repr

/-- Embeds `TrafficGenerator.__init__` (lines 67-77): the base URL has its
trailing slashes stripped and the statistics start at zero.  The
constructor performs no validation of the URL. -/
def TrafficGenerator.init (base_url : String) (verbose : Bool) : TrafficGenerator :=
  { base_url := rstrip_slash base_url, verbose := verbose, stats := initStats }

/-- Modelled from the spec: a constructor that, in the spec's words,
produces a dispatcher whose base URL is "validated non-empty, trailing
slash stripped".  The source `__init__` contains no such validation; this
definition exists only to be compared with `TrafficGenerator.init`. -/
def TrafficGenerator.init_validating (base_url : String) : Option TrafficGenerator :=
  if base_url = "" then none else some (TrafficGenerator.init base_url true)

/-- An outgoing HTTP request as configured by a dispatcher: the URL and
the `aiohttp.ClientTimeout(total=...)` value in seconds. -/
structure HttpRequest where
  url : String
  timeout_s : Nat
deriving DecidableEq, Repr

/-- The JSON payload `{"message": message, "safe_mode": safe_mode}` built
by `send_chat`. -/
structure ChatPayload where
  message : String
  safe_mode : Bool
deriving DecidableEq, Repr

/-- Request construction in `send_chat` (lines 85-90): POST to
`{base_url}/chat` with timeout 120 seconds. -/
def chat_request (g : TrafficGenerator) (message : String) (safe_mode : Bool) :
    HttpRequest × ChatPayload :=
  ({ url := g.base_url ++ "/chat", timeout_s := 120 },
   { message := message, safe_mode := safe_mode })

/-- Request construction in `send_malformed` (lines 121-125): POST to
`{base_url}/chat` with timeout 30 seconds (the payload is the caller's
arbitrary malformed dict). -/
def malformed_request (g : TrafficGenerator) : HttpRequest :=
  { url := g.base_url ++ "/chat", timeout_s := 30 }

/-- Componentwise addition of statistics; every field update performed by
the dispatchers is an increment, so each call adds a fixed delta. -/
def Stats.add (a b : Stats) : Stats :=
  { total := a.total + b.total,
    success := a.success + b.success,
    errors := a.errors + b.errors,
    total_latency_ms := a.total_latency_ms + b.total_latency_ms,
    total_tokens := a.total_tokens + b.total_tokens,
    total_cost := a.total_cost + b.total_cost }

instance : Zero Stats := ⟨initStats⟩

instance : Add Stats := ⟨Stats.add⟩

instance : AddCommMonoid Stats where
  add_assoc a b c := by
    show Stats.add (Stats.add a b) c = Stats.add a (Stats.add b c)
    simp only [Stats.add, Stats.mk.injEq]
    refine ⟨?_, ?_, ?_, ?_, ?_, ?_⟩ <;> ring
  zero_add a := by
    show Stats.add initStats a = a
    simp only [Stats.add, initStats]
    ext <;> simp
  add_zero a := by
    show Stats.add a initStats = a
    simp only [Stats.add, initStats]
    ext <;> simp
  add_comm a b := by
    show Stats.add a b = Stats.add b a
    simp only [Stats.add, Stats.mk.injEq]
    refine ⟨?_, ?_, ?_, ?_, ?_, ?_⟩ <;> ring
  nsmul := nsmulRec

/-- The statistics delta contributed by one `send_chat` call with network
oracle `o` (read off the branches of `send_chat`). -/
def chatDelta (o : NetOutcome) : Stats :=
  match o with
  | .postExn _ _ =>
      { total := 1, success := 0, errors := 1,
        total_latency_ms := 0, total_tokens := 0, total_cost := 0 }
  | .response lat resp _ =>
      if resp.status = 200 then
        match resp.json with
        | .ok b =>
            { total := 1, success := 1, errors := 0,
              total_latency_ms := lat, total_tokens := b.tokenContrib,
              total_cost := b.costContrib }
        | .raised _ =>
            { total := 2, success := 0, errors := 1,
              total_latency_ms := lat, total_tokens := 0, total_cost := 0 }
      else
        match resp.text with
        | .ok _ =>
            { total := 1, success := 0, errors := 1,
              total_latency_ms := lat, total_tokens := 0, total_cost := 0 }
        | .raised _ =>
            { total := 2, success := 0, errors := 2,
              total_latency_ms := lat, total_tokens := 0, total_cost := 0 }

/-- Folding a list of chat outcomes into the statistics, in list order
(the statistics part of `scenario_spike`, and of the sequential chat
scenarios). -/
def fold_chat (s : Stats) (l : List NetOutcome) : Stats :=
  l.foldl (fun st o => (send_chat st o).stats) s

/-- The HTTP status carried by an outcome, when a response arrived. -/
def responseStatus : NetOutcome → Option Nat
  | .postExn _ _ => none
  | .response _ r _ => some r.status

/-- A fully successful chat outcome: HTTP 200 whose JSON body parses. -/
def successOutcome (lat : ℚ) (b : ChatBody) : NetOutcome :=
  .response lat { status := 200, json := .ok b, text := .ok "" } 0

/-- The response body `{"tokens": {"total_tokens": 42},
"cost": {"total_cost_usd": 0.002}}` used in the spec's worked example. -/
def body42 : ChatBody :=
  { tokens := some { total_tokens := some 42 },
    cost := some { total_cost_usd := some (1/500) } }

theorem stats_add_def (a b : Stats) : a + b = Stats.add a b := rfl

theorem send_chat_stats_eq (s : Stats) (o : NetOutcome) :
    (send_chat s o).stats = s + chatDelta o := by
  cases o with
  | postExn e m =>
      ext <;> simp [send_chat, chatDelta, stats_add_def, Stats.add]
  | response lat r e =>
      rcases r with ⟨st, j, t⟩
      by_cases h : st = 200
      · cases j with
        | ok b =>
            ext <;> simp [send_chat, chatDelta, h, stats_add_def, Stats.add]
        | raised m =>
            ext <;> simp [send_chat, chatDelta, h, stats_add_def, Stats.add]
      · cases t with
        | ok tx =>
            ext <;> simp [send_chat, chatDelta, h, stats_add_def, Stats.add]
        | raised m =>
            ext <;> simp [send_chat, chatDelta, h, stats_add_def, Stats.add]

theorem fold_chat_nil (s : Stats) : fold_chat s [] = s := rfl

theorem fold_chat_cons (s : Stats) (o : NetOutcome) (l : List NetOutcome) :
    fold_chat s (o :: l) = fold_chat ((send_chat s o).stats) l := rfl

theorem fold_chat_eq (s : Stats) (l : List NetOutcome) :
    fold_chat s l = s + (l.map chatDelta).sum := by
  induction l generalizing s with
  | nil => simp [fold_chat_nil]
  | cons o rest ih =>
      rw [fold_chat_cons, ih, send_chat_stats_eq, List.map_cons, List.sum_cons, add_assoc]

theorem fold_chat_perm (s : Stats) {l₁ l₂ : List NetOutcome} (h : l₁.Perm l₂) :
    fold_chat s l₁ = fold_chat s l₂ := by
  rw [fold_chat_eq, fold_chat_eq, List.Perm.sum_eq (h.map chatDelta)]

theorem scenario_spike_stats (s : Stats) (l : List NetOutcome) :
    (scenario_spike s l).stats = fold_chat s l := by
  induction l generalizing s with
  | nil => rfl
  | cons o rest ih =>
      rw [scenario_spike, fold_chat_cons]
      exact ih _

theorem scenario_spike_trace (s : Stats) (l : List NetOutcome) :
    (scenario_spike s l).trace = List.replicate l.length Ev.dispatchChat := by
  induction l generalizing s with
  | nil => rfl
  | cons o rest ih =>
      rw [scenario_spike]
      simp [List.replicate_succ, ih]

theorem scenario_spike_results_length (s : Stats) (l : List NetOutcome) :
    (scenario_spike s l).results.length = l.length := by
  induction l generalizing s with
  | nil => rfl
  | cons o rest ih =>
      rw [scenario_spike]
      simp [ih]

theorem apply_step_total_lt (s : Stats) (st : Step) :
    s.total + 1 ≤ (apply_step s st).total := by
  cases st with
  | chat o =>
      cases o with
      | postExn e m => simp [apply_step, send_chat]
      | response lat r e =>
          rcases r with ⟨hst, j, t⟩
          by_cases h : hst = 200
          · cases j <;> simp [apply_step, send_chat, h]
          · cases t <;> simp [apply_step, send_chat, h]
  | malformed o =>
      cases o with
      | postExn e m => simp [apply_step, send_malformed]
      | response lat r e =>
          by_cases h : r.status ≠ 200 <;> simp [apply_step, send_malformed, h]

theorem foldl_apply_step_total_mono (l : List Step) (s : Stats) :
    s.total ≤ (l.foldl apply_step s).total := by
  induction l generalizing s with
  | nil => simp
  | cons a t ih =>
      calc s.total ≤ s.total + 1 := Nat.le_succ _
        _ ≤ (apply_step s a).total := apply_step_total_lt s a
        _ ≤ (t.foldl apply_step (apply_step s a)).total := ih _

theorem run_steps_total_zero {l : List Step} (h : (run_steps l).total = 0) :
    l = [] := by
  cases l with
  | nil => rfl
  | cons a t =>
      exfalso
      have h1 : 1 ≤ (apply_step initStats a).total := apply_step_total_lt initStats a
      have h2 : (apply_step initStats a).total ≤ (run_steps (a :: t)).total :=
        foldl_apply_step_total_mono t _
      omega

theorem scenario_errors_all400 (l : List NetOutcome) (s : Stats)
    (h : ∀ o ∈ l, responseStatus o = some 400) :
    (scenario_errors s l).stats.total = s.total + l.length ∧
    (scenario_errors s l).stats.success = s.success ∧
    (scenario_errors s l).stats.errors = s.errors + l.length ∧
    (scenario_errors s l).logs.length = l.length ∧
    ∀ e ∈ (scenario_errors s l).logs, ∃ lat, e = LogLine.expectedErrorLine 400 lat := by
  induction l generalizing s with
  | nil => simp [scenario_errors]
  | cons o rest ih =>
      have ho : responseStatus o = some 400 := h o (List.mem_cons_self o rest)
      have hrest : ∀ o₂ ∈ rest, responseStatus o₂ = some 400 :=
        fun o₂ hm => h o₂ (List.mem_cons_of_mem o hm)
      cases o with
      | postExn e m => simp [responseStatus] at ho
      | response lat r e =>
          have hst : r.status = 400 := by
            simpa [responseStatus] using ho
          have hne : r.status ≠ 200 := by omega
          have hstats : (send_malformed s (.response lat r e)).stats =
              { s with total := s.total + 1, errors := s.errors + 1 } := by
            simp [send_malformed, hne]
          have hlog : (send_malformed s (.response lat r e)).log =
              some (LogLine.expectedErrorLine r.status lat) := by
            simp [send_malformed, hne]
          obtain ⟨ih1, ih2, ih3, ih4, ih5⟩ :=
            ih { s with total := s.total + 1, errors := s.errors + 1 } hrest
          simp only [scenario_errors, hstats, hlog]
          refine ⟨?_, ?_, ?_, ?_, ?_⟩
          · simp [ih1]; omega
          · simp [ih2]
          · simp [ih3]; omega
          · simp [ih4]
          · intro e₂ he₂
            simp only [Option.toList_some, List.cons_append, List.nil_append,
              List.mem_cons] at he₂
            rcases he₂ with h₁ | h₂
            · exact ⟨lat, by rw [h₁, hst]⟩
            · exact ih5 e₂ h₂

theorem head_dropWhile_false {p : Char → Bool} :
    ∀ (l : List Char) (c : Char), (l.dropWhile p).head? = some c → p c = false := by
  intro l
  induction l with
  | nil => intro c h; simp [List.dropWhile] at h
  | cons a t ih =>
      intro c h
      by_cases hp : p a
      · rw [List.dropWhile_cons, if_pos hp] at h
        exact ih c h
      · rw [List.dropWhile_cons, if_neg hp] at h
        simp only [List.head?_cons, Option.some.injEq] at h
        rw [← h]
        exact Bool.of_not_eq_true hp

theorem rstrip_slash_no_trailing (u : String) (c : Char)
    (h : (rstrip_slash u).data.getLast? = some c) : c ≠ '/' := by
  have h₂ : (u.data.reverse.dropWhile (fun x => x == '/')).head? = some c := by
    rw [← List.getLast?_reverse]
    exact h
  have h₃ := head_dropWhile_false (p := fun x => x == '/') _ c h₂
  simpa using h₃

/-- C1: the spec claims `stats.total == stats.success + stats.errors` after
every scenario run, each dispatched request incrementing `total` exactly
once and exactly one of `success`/`errors` once.  The code violates this:
a normal-scenario run whose single request gets HTTP 200 with a body that
fails JSON parsing increments `total` at response receipt and again in the
exception handler, ending with `total = 2`, `success = 0`, `errors = 1`. -/
theorem bad_json_double_counts_total :
    (scenario_normal 1 initStats
        [NetOutcome.response 100
          { status := 200, json := .raised "invalid body", text := .ok "" } 105]).stats.total = 2 ∧
    (scenario_normal 1 initStats
        [NetOutcome.response 100
          { status := 200, json := .raised "invalid body", text := .ok "" } 105]).stats.success = 0 ∧
    (scenario_normal 1 initStats
        [NetOutcome.response 100
          { status := 200, json := .raised "invalid body", text := .ok "" } 105]).stats.errors = 1 ∧
    (scenario_normal 1 initStats
        [NetOutcome.response 100
          { status := 200, json := .raised "invalid body", text := .ok "" } 105]).stats.total ≠
      (scenario_normal 1 initStats
        [NetOutcome.response 100
          { status := 200, json := .raised "invalid body", text := .ok "" } 105]).stats.success +
      (scenario_normal 1 initStats
        [NetOutcome.response 100
          { status := 200, json := .raised "invalid body", text := .ok "" } 105]).stats.errors := by
  decide

/-- C2 counterexample: the errors scenario against a target answering HTTP
400 for every probe does NOT leave `success == N` and `errors == 0`; with
three probes it ends with `success = 0` and `errors = 3`. -/
theorem errors_scenario_all400_not_in_success :
    (scenario_errors initStats (List.replicate 3
        (NetOutcome.response 10
          { status := 400, json := .ok { tokens := none, cost := none },
            text := .ok "" } 0))).stats.success = 0 ∧
    (scenario_errors initStats (List.replicate 3
        (NetOutcome.response 10
          { status := 400, json := .ok { tokens := none, cost := none },
            text := .ok "" } 0))).stats.errors = 3 ∧
    ¬ ((scenario_errors initStats (List.replicate 3
        (NetOutcome.response 10
          { status := 400, json := .ok { tokens := none, cost := none },
            text := .ok "" } 0))).stats.success = 3 ∧
       (scenario_errors initStats (List.replicate 3
        (NetOutcome.response 10
          { status := 400, json := .ok { tokens := none, cost := none },
            text := .ok "" } 0))).stats.errors = 0) := by
  decide

/-- C2 (amended): for every N, running the errors scenario with N
malformed probes against a target that returns HTTP 400 for every probe
leaves `stats.errors == N` and `stats.success == 0` (each expected-error
outcome is counted in the errors counter), with an expected-error console
line emitted for each probe. -/
theorem errors_scenario_all400_counts (l : List NetOutcome)
    (h : ∀ o ∈ l, responseStatus o = some 400) :
    (scenario_errors initStats l).stats.errors = l.length ∧
    (scenario_errors initStats l).stats.success = 0 ∧
    (scenario_errors initStats l).stats.total = l.length ∧
    (scenario_errors initStats l).logs.length = l.length ∧
    ∀ e ∈ (scenario_errors initStats l).logs,
      ∃ lat, e = LogLine.expectedErrorLine 400 lat := by
  obtain ⟨h1, h2, h3, h4, h5⟩ := scenario_errors_all400 l initStats h
  exact ⟨by simpa [initStats] using h3, by simpa [initStats] using h2,
         by simpa [initStats] using h1, h4, h5⟩

/-- Witness for the amended C2 theorem at a concrete one-probe run. -/
theorem errors_scenario_all400_counts_witness :
    (∀ o ∈ [NetOutcome.response 7
        { status := 400, json := .ok { tokens := none, cost := none },
          text := .ok "" } 9], responseStatus o = some 400) ∧
    ((scenario_errors initStats [NetOutcome.response 7
        { status := 400, json := .ok { tokens := none, cost := none },
          text := .ok "" } 9]).stats.errors = 1 ∧
     (scenario_errors initStats [NetOutcome.response 7
        { status := 400, json := .ok { tokens := none, cost := none },
          text := .ok "" } 9]).stats.success = 0 ∧
     (scenario_errors initStats [NetOutcome.response 7
        { status := 400, json := .ok { tokens := none, cost := none },
          text := .ok "" } 9]).stats.total = 1 ∧
     (scenario_errors initStats [NetOutcome.response 7
        { status := 400, json := .ok { tokens := none, cost := none },
          text := .ok "" } 9]).logs.length = 1 ∧
     ∀ e ∈ (scenario_errors initStats [NetOutcome.response 7
        { status := 400, json := .ok { tokens := none, cost := none },
          text := .ok "" } 9]).logs,
       ∃ lat, e = LogLine.expectedErrorLine 400 lat) :=
  ⟨by decide, errors_scenario_all400_counts _ (by decide)⟩

/-- C3 counterexample: the malformed-probe counter assignment is NOT the
opposite of the normal dispatcher's.  On the same HTTP 400 response, both
`send_malformed` and `send_chat` increment `errors` and leave `success`
unchanged. -/
theorem malformed_classification_not_inverted :
    (send_malformed initStats (NetOutcome.response 10
        { status := 400, json := .ok { tokens := none, cost := none },
          text := .ok "bad request" } 0)).stats.errors = 1 ∧
    (send_malformed initStats (NetOutcome.response 10
        { status := 400, json := .ok { tokens := none, cost := none },
          text := .ok "bad request" } 0)).stats.success = 0 ∧
    (send_chat initStats (NetOutcome.response 10
        { status := 400, json := .ok { tokens := none, cost := none },
          text := .ok "bad request" } 0)).stats.errors = 1 ∧
    (send_chat initStats (NetOutcome.response 10
        { status := 400, json := .ok { tokens := none, cost := none },
          text := .ok "bad request" } 0)).stats.success = 0 := by
  decide

/-- C3 (amended): for every malformed-probe dispatch that receives an HTTP
response, HTTP 200 increments `stats.success` by one and non-200
increments `stats.errors` by one — the SAME counter assignment as the
normal dispatcher (which also counts a parsed 200 as success and a
non-200 as error); only the log interpretation is inverted (non-200 logged
as expected error, 200 as unexpected success). -/
theorem malformed_probe_counter_classification (s : Stats) (lat e : ℚ) (r : HttpResponse) :
    (r.status = 200 →
      (send_malformed s (.response lat r e)).stats.success = s.success + 1 ∧
      (send_malformed s (.response lat r e)).stats.errors = s.errors ∧
      (send_malformed s (.response lat r e)).log = some (LogLine.unexpectedSuccessLine lat)) ∧
    (r.status ≠ 200 →
      (send_malformed s (.response lat r e)).stats.errors = s.errors + 1 ∧
      (send_malformed s (.response lat r e)).stats.success = s.success ∧
      (send_malformed s (.response lat r e)).log = some (LogLine.expectedErrorLine r.status lat)) ∧
    (∀ b tx,
      (send_chat s (.response lat { status := 200, json := .ok b, text := .ok tx } e)).stats.success = s.success + 1 ∧
      (send_chat s (.response lat { status := 200, json := .ok b, text := .ok tx } e)).stats.errors = s.errors) ∧
    (∀ st j tx, st ≠ 200 →
      (send_chat s (.response lat { status := st, json := j, text := .ok tx } e)).stats.errors = s.errors + 1 ∧
      (send_chat s (.response lat { status := st, json := j, text := .ok tx } e)).stats.success = s.success) := by
  refine ⟨?_, ?_, ?_, ?_⟩
  · intro h
    simp [send_malformed, h]
  · intro h
    simp [send_malformed, h]
  · intro b tx
    simp [send_chat]
  · intro st j tx h
    cases j <;> simp [send_chat, h]

/-- Witness for the amended C3 theorem at a concrete 400 response. -/
theorem malformed_probe_counter_classification_witness :
    (400 : Nat) ≠ 200 ∧
    ((send_malformed initStats (NetOutcome.response 3
        { status := 400, json := .ok { tokens := none, cost := none },
          text := .ok "" } 0)).stats.errors = initStats.errors + 1 ∧
     (send_malformed initStats (NetOutcome.response 3
        { status := 400, json := .ok { tokens := none, cost := none },
          text := .ok "" } 0)).stats.success = initStats.success ∧
     (send_malformed initStats (NetOutcome.response 3
        { status := 400, json := .ok { tokens := none, cost := none },
          text := .ok "" } 0)).log = some (LogLine.expectedErrorLine 400 3)) ∧
    ((send_chat initStats (NetOutcome.response 3
        { status := 400, json := .ok { tokens := none, cost := none },
          text := .ok "" } 0)).stats.errors = initStats.errors + 1 ∧
     (send_chat initStats (NetOutcome.response 3
        { status := 400, json := .ok { tokens := none, cost := none },
          text := .ok "" } 0)).stats.success = initStats.success) :=
  ⟨by decide,
   (malformed_probe_counter_classification initStats 3 0
      { status := 400, json := .ok { tokens := none, cost := none },
        text := .ok "" }).2.1 (by decide),
   (malformed_probe_counter_classification initStats 3 0
      { status := 400, json := .ok { tokens := none, cost := none },
        text := .ok "" }).2.2.2 400 (.ok { tokens := none, cost := none }) "" (by decide)⟩

/-- C4 counterexample: `total_latency_ms` is NOT increased on every
request attempt.  A chat request whose post raises increments `errors` but
adds nothing to `total_latency_ms` (the claim requires it to grow by the
measured 50ms), and a malformed probe that receives a response also leaves
`total_latency_ms` untouched. -/
theorem latency_not_recorded_on_all_paths :
    (send_chat initStats (NetOutcome.postExn 50 "connection refused")).stats.total_latency_ms = 0 ∧
    (send_chat initStats (NetOutcome.postExn 50 "connection refused")).stats.errors = 1 ∧
    ¬ (send_chat initStats (NetOutcome.postExn 50 "connection refused")).stats.total_latency_ms = 50 ∧
    (send_malformed initStats (NetOutcome.response 70
        { status := 400, json := .ok { tokens := none, cost := none },
          text := .ok "" } 0)).stats.total_latency_ms = 0 := by
  decide

/-- C4 (amended): `total_latency_ms` is increased by the measured latency
only for well-formed chat requests that receive an HTTP response (on the
success, error-status and body-read-failure branches alike, using the
latency measured at response receipt); the chat exception path leaves it
unchanged while still carrying the measured latency in the returned
record, and no `send_malformed` path ever updates it. -/
theorem chat_latency_accounting (s : Stats) (lat e : ℚ) (r : HttpResponse)
    (msg : String) (o : NetOutcome) :
    (send_chat s (.response lat r e)).stats.total_latency_ms = s.total_latency_ms + lat ∧
    (send_chat s (.postExn lat msg)).stats.total_latency_ms = s.total_latency_ms ∧
    (send_chat s (.postExn lat msg)).result.latency_ms = some lat ∧
    (send_malformed s o).stats.total_latency_ms = s.total_latency_ms := by
  refine ⟨?_, ?_, ?_, ?_⟩
  · rcases r with ⟨st, j, t⟩
    by_cases h : st = 200
    · cases j <;> simp [send_chat, h]
    · cases t <;> simp [send_chat, h]
  · simp [send_chat]
  · simp [send_chat]
  · cases o with
    | postExn a b => simp [send_malformed]
    | response a r₂ b => by_cases h : r₂.status ≠ 200 <;> simp [send_malformed, h]

/-- C5: for every reachable statistics state with `stats.total == 0` (any
sequence of dispatcher calls from the fresh accumulator), the summary
reporter computes 0% for both the success rate and the error rate.  The
reporter cannot raise: its percentage divisors are `max 1 total ≥ 1` and
the average-latency division is guarded by `total > 0` (here: it yields
`none`). -/
theorem summary_guard_zero_total (l : List Step) (h : (run_steps l).total = 0) :
    (print_summary (run_steps l)).successPct = 0 ∧
    (print_summary (run_steps l)).errorPct = 0 ∧
    (print_summary (run_steps l)).avgLatency = none := by
  have hl := run_steps_total_zero h
  subst hl
  refine ⟨?_, ?_, ?_⟩ <;>
    simp [run_steps, print_summary, initStats]

/-- Witness for the C5 theorem: the empty run has `total = 0`. -/
theorem summary_guard_zero_total_witness :
    (run_steps []).total = 0 ∧
    ((print_summary (run_steps [])).successPct = 0 ∧
     (print_summary (run_steps [])).errorPct = 0 ∧
     (print_summary (run_steps [])).avgLatency = none) :=
  ⟨by decide, summary_guard_zero_total [] (by decide)⟩

/-- C6 counterexample: the constructor performs NO non-emptiness
validation of the base URL.  Constructing with the empty string succeeds
and yields a generator with base URL `""`, whereas the spec-modelled
validating constructor rejects it. -/
theorem init_accepts_empty_url :
    TrafficGenerator.init "" true =
      { base_url := "", verbose := true, stats := initStats } ∧
    TrafficGenerator.init_validating "" = none := by
  decide

/-- C6 (amended): the dispatcher is constructed with a target base URL
whose trailing slashes are stripped (no non-emptiness validation is
performed), and it uses a per-request timeout of 120 seconds for
well-formed chat requests and 30 seconds for malformed-request probes,
both posting to `{base_url}/chat`. -/
theorem generator_url_and_timeouts (u m : String) (sm v : Bool) :
    (TrafficGenerator.init u v).base_url = rstrip_slash u ∧
    (∀ c, (TrafficGenerator.init u v).base_url.data.getLast? = some c → c ≠ '/') ∧
    (chat_request (TrafficGenerator.init u v) m sm).1.timeout_s = 120 ∧
    (chat_request (TrafficGenerator.init u v) m sm).1.url = rstrip_slash u ++ "/chat" ∧
    (chat_request (TrafficGenerator.init u v) m sm).2 = { message := m, safe_mode := sm } ∧
    (malformed_request (TrafficGenerator.init u v)).timeout_s = 30 ∧
    (malformed_request (TrafficGenerator.init u v)).url = rstrip_slash u ++ "/chat" := by
  refine ⟨rfl, ?_, rfl, rfl, rfl, rfl, rfl⟩
  intro c hc
  exact rstrip_slash_no_trailing u c hc

/-- Witness for the amended C6 theorem at a URL with trailing slashes. -/
theorem generator_url_and_timeouts_witness :
    (TrafficGenerator.init "http://host//" true).base_url.data.getLast? = some 't' ∧
    ('t' : Char) ≠ '/' ∧
    (chat_request (TrafficGenerator.init "http://host//" true) "hi" false).1.timeout_s = 120 ∧
    (malformed_request (TrafficGenerator.init "http://host//" true)).timeout_s = 30 :=
  ⟨by decide,
   (generator_url_and_timeouts "http://host//" "hi" false true).2.1 't' (by decide),
   (generator_url_and_timeouts "http://host//" "hi" false true).2.2.1,
   (generator_url_and_timeouts "http://host//" "hi" false true).2.2.2.2.2.1⟩

/-- C7: five normal-scenario requests all answered HTTP 200 with body
`{"tokens": {"total_tokens": 42}, "cost": {"total_cost_usd": 0.002}}`
(cost modelled exactly as 1/500) leave `total_tokens = 210`,
`total_cost = 1/100` (= 0.010), `success = 5`, `errors = 0`; and a success
response with both fields absent contributes zero to the token and cost
totals. -/
theorem normal_five_200s_totals :
    (scenario_normal 1 initStats
        [successOutcome 100 body42, successOutcome 100 body42, successOutcome 100 body42,
         successOutcome 100 body42, successOutcome 100 body42]).stats.total_tokens = 210 ∧
    (scenario_normal 1 initStats
        [successOutcome 100 body42, successOutcome 100 body42, successOutcome 100 body42,
         successOutcome 100 body42, successOutcome 100 body42]).stats.total_cost = 1/100 ∧
    (scenario_normal 1 initStats
        [successOutcome 100 body42, successOutcome 100 body42, successOutcome 100 body42,
         successOutcome 100 body42, successOutcome 100 body42]).stats.success = 5 ∧
    (scenario_normal 1 initStats
        [successOutcome 100 body42, successOutcome 100 body42, successOutcome 100 body42,
         successOutcome 100 body42, successOutcome 100 body42]).stats.errors = 0 ∧
    (∀ s lat e tx,
      (send_chat s (.response lat
          { status := 200, json := .ok { tokens := none, cost := none },
            text := .ok tx } e)).stats.total_tokens = s.total_tokens ∧
      (send_chat s (.response lat
          { status := 200, json := .ok { tokens := none, cost := none },
            text := .ok tx } e)).stats.total_cost = s.total_cost) := by
  refine ⟨?_, ?_, ?_, ?_, ?_⟩
  · norm_num [scenario_normal, send_chat, successOutcome, body42, initStats,
      ChatBody.tokenContrib, ChatBody.costContrib]
  · norm_num [scenario_normal, send_chat, successOutcome, body42, initStats,
      ChatBody.tokenContrib, ChatBody.costContrib]
  · norm_num [scenario_normal, send_chat, successOutcome, body42, initStats,
      ChatBody.tokenContrib, ChatBody.costContrib]
  · norm_num [scenario_normal, send_chat, successOutcome, body42, initStats,
      ChatBody.tokenContrib, ChatBody.costContrib]
  · intro s lat e tx
    constructor <;> simp [send_chat, ChatBody.tokenContrib, ChatBody.costContrib]

/-- C8: token and cost aggregation is additive and order-independent —
folding the same multiset of successful responses (given as a list of
latency/body pairs, in any order) into the statistics yields identical
final `total_tokens` and `total_cost`. -/
theorem token_cost_fold_perm (s : Stats) (l₁ l₂ : List (ℚ × ChatBody)) (h : l₁.Perm l₂) :
    (fold_chat s (l₁.map fun p => successOutcome p.1 p.2)).total_tokens =
      (fold_chat s (l₂.map fun p => successOutcome p.1 p.2)).total_tokens ∧
    (fold_chat s (l₁.map fun p => successOutcome p.1 p.2)).total_cost =
      (fold_chat s (l₂.map fun p => successOutcome p.1 p.2)).total_cost := by
  have hs : fold_chat s (l₁.map fun p => successOutcome p.1 p.2) =
      fold_chat s (l₂.map fun p => successOutcome p.1 p.2) :=
    fold_chat_perm s (h.map _)
  exact ⟨by rw [hs], by rw [hs]⟩

/-- Witness for the C8 theorem on a concrete two-element permutation. -/
theorem token_cost_fold_perm_witness :
    ([((5 : ℚ), body42), ((6 : ℚ), { tokens := none, cost := none })].Perm
       [((6 : ℚ), { tokens := none, cost := none }), ((5 : ℚ), body42)]) ∧
    ((fold_chat initStats
        ([((5 : ℚ), body42), ((6 : ℚ), { tokens := none, cost := none })].map
          fun p => successOutcome p.1 p.2)).total_tokens =
      (fold_chat initStats
        ([((6 : ℚ), { tokens := none, cost := none }), ((5 : ℚ), body42)].map
          fun p => successOutcome p.1 p.2)).total_tokens ∧
     (fold_chat initStats
        ([((5 : ℚ), body42), ((6 : ℚ), { tokens := none, cost := none })].map
          fun p => successOutcome p.1 p.2)).total_cost =
      (fold_chat initStats
        ([((6 : ℚ), { tokens := none, cost := none }), ((5 : ℚ), body42)].map
          fun p => successOutcome p.1 p.2)).total_cost) :=
  ⟨List.Perm.swap _ _ _,
   token_cost_fold_perm initStats _ _ (List.Perm.swap _ _ _)⟩

/-- C9: the spike scenario over N supplied outcomes launches exactly N
chat dispatches with no sleep event between any of them, collects all N
result records before returning, and its final statistics do not depend on
the completion order (any permutation of the outcomes yields the same
final statistics). -/
theorem spike_exact_dispatches (s : Stats) (l : List NetOutcome) :
    (scenario_spike s l).trace = List.replicate l.length Ev.dispatchChat ∧
    (∀ d, Ev.sleep d ∉ (scenario_spike s l).trace) ∧
    (scenario_spike s l).results.length = l.length ∧
    (∀ l₂, l.Perm l₂ → (scenario_spike s l).stats = (scenario_spike s l₂).stats) := by
  refine ⟨scenario_spike_trace s l, ?_, scenario_spike_results_length s l, ?_⟩
  · intro d hd
    rw [scenario_spike_trace] at hd
    exact Ev.noConfusion (List.eq_of_mem_replicate hd)
  · intro l₂ hp
    rw [scenario_spike_stats, scenario_spike_stats]
    exact fold_chat_perm s hp

/-- Witness for the C9 theorem on a concrete two-outcome spike. -/
theorem spike_exact_dispatches_witness :
    ([successOutcome 4 body42, NetOutcome.postExn 9 "timeout"].Perm
       [NetOutcome.postExn 9 "timeout", successOutcome 4 body42]) ∧
    (scenario_spike initStats
        [successOutcome 4 body42, NetOutcome.postExn 9 "timeout"]).trace =
      List.replicate 2 Ev.dispatchChat ∧
    (scenario_spike initStats
        [successOutcome 4 body42, NetOutcome.postExn 9 "timeout"]).stats =
      (scenario_spike initStats
        [NetOutcome.postExn 9 "timeout", successOutcome 4 body42]).stats :=
  ⟨List.Perm.swap _ _ _,
   (spike_exact_dispatches initStats
      [successOutcome 4 body42, NetOutcome.postExn 9 "timeout"]).1,
   (spike_exact_dispatches initStats
      [successOutcome 4 body42, NetOutcome.postExn 9 "timeout"]).2.2.2 _
     (List.Perm.swap _ _ _)⟩

/-- C10: a malformed probe whose post raises increments `total` and
`errors` by one and returns a record with `ok = false` and the exception
text but NO `latency_ms` key — unlike every other dispatcher result
record: every `send_chat` result and every responded `send_malformed`
result carries a latency measurement. -/
theorem malformed_exception_result_shape (s : Stats) (e : ℚ) (msg : String) :
    (send_malformed s (.postExn e msg)).stats.total = s.total + 1 ∧
    (send_malformed s (.postExn e msg)).stats.errors = s.errors + 1 ∧
    (send_malformed s (.postExn e msg)).stats.success = s.success ∧
    (send_malformed s (.postExn e msg)).result.ok = false ∧
    (send_malformed s (.postExn e msg)).result.error = some msg ∧
    (send_malformed s (.postExn e msg)).result.latency_ms = none ∧
    (∀ o, (send_chat s o).result.latency_ms.isSome = true) ∧
    (∀ lat r e₂, (send_malformed s (.response lat r e₂)).result.latency_ms = some lat) := by
  refine ⟨rfl, rfl, rfl, rfl, rfl, rfl, ?_, ?_⟩
  · intro o
    cases o with
    | postExn a b => simp [send_chat]
    | response lat r e₂ =>
        rcases r with ⟨st, j, t⟩
        by_cases h : st = 200
        · cases j <;> simp [send_chat, h]
        · cases t <;> simp [send_chat, h]
  · intro lat r e₂
    by_cases h : r.status ≠ 200 <;> simp [send_malformed, h]
